import Mathlib

/-!
Verification of the Serverless Multi-Tenant SaaS task-management backend.

This file gives a shallow embedding of the Python handlers in
`src/services` and `src/events`, and proves (or refutes) the frozen
specification claims about them.  Every definition is translated
directly from the corresponding Python source:

* `check_user_permissions`   — src/services/common/utils.py, lines 150-171
* `validate_task_data`       — src/services/common/utils.py, lines 74-105
* `update_task_handler`      — src/services/tasks/update_task.py
* `create_task_handler`      — src/services/tasks/create_task.py
* `delete_task_handler`      — src/services/tasks/delete_task.py
* `authorizer_handler`       — src/services/auth/authorizer.py
* `fanout_handler`           — src/events/task_created_handler.py

Python `None` is modelled as `Option.none`, dictionaries with a fixed
set of keys as structures, the DynamoDB table as a function from
(tenant id, task id) to an optional stored item, raised exceptions as
`Except` values or explicit outcome flags, and the wall clock as an
explicit `now` argument.
-/

namespace SaaS

/-- Permission policy, translated from `check_user_permissions` in
src/services/common/utils.py.  The Python function takes the role and
action as strings and the optional `resource_owner` / `current_user`
arguments (default `None`); control falls through to `return False`
whenever no branch fires. -/
def check_user_permissions (user_role : String) (action : String)
    (resource_owner : Option String := none)
    (current_user : Option String := none) : Bool :=
  -- Admins can do everything
  if user_role = "ADMIN" then
    true
  -- Members have limited permissions
  else if user_role = "MEMBER" then
    if action = "create" ∨ action = "read" then
      true
    else if action = "update" ∧ resource_owner = current_user then
      true
    else if action = "delete" then
      false  -- Only admins can delete
    else
      false  -- fall-through `return False`
  else
    false    -- fall-through `return False`

/-- A stored task item, the DynamoDB item written by the create handler
(src/services/tasks/create_task.py, `task_item`).  `PK`/`SK`/`GSI1PK`
are determined by tenant_id/task_id, so only `GSI1SK` is kept as an
explicit stored field. -/
structure Task where
  task_id : String
  tenant_id : String
  title : String
  description : String
  status : String
  priority : String
  assigned_to : String
  created_by : String
  created_at : String
  updated_at : String
  GSI1SK : String
  deriving Repr, DecidableEq

/-- The Record Store: one optional task per (tenant partition, task id),
modelling keys `PK = TENANT#tenant` / `SK = TASK#id`. -/
def Store : Type := String → String → Option Task

/-- Point update of the store at one (tenant, task id) key. -/
def Store.put (s : Store) (tenant id : String) (t : Option Task) : Store :=
  fun ten tid => if ten = tenant ∧ tid = id then t else s ten tid

/-- A parsed JSON request body for create/update: `none` models a key
absent from the JSON object. -/
structure Body where
  title : Option String := none
  description : Option String := none
  status : Option String := none
  priority : Option String := none
  assigned_to : Option String := none
  deriving Repr, DecidableEq

/-- The result of one task-operation handler invocation: the HTTP
status code of the response and the store after the invocation. -/
structure HandlerResult where
  statusCode : Nat
  store : Store

/-- The single `update_item` write of the update handler
(src/services/tasks/update_task.py, lines 83-111): the update
expression always sets `updated_at`, sets each of the five updatable
fields that is present in the body, and sets
`GSI1SK = STATUS#<body status>#<updated_at>` when `status` is in the
body.  One function application = one atomic write. -/
def applyUpdate (t : Task) (body : Body) (now : String) : Task :=
  { t with
    updated_at := now
    title := body.title.getD t.title
    description := body.description.getD t.description
    status := body.status.getD t.status
    priority := body.priority.getD t.priority
    assigned_to := body.assigned_to.getD t.assigned_to
    GSI1SK := match body.status with
      | some s => "STATUS#" ++ s ++ "#" ++ now
      | none => t.GSI1SK }

/-- Update handler, translated from `handler` in
src/services/tasks/update_task.py.  Fetch the existing item from the
tenant partition (404 when absent); deny with 403 when the caller is a
MEMBER who is not the task's creator; otherwise perform the single
`update_item` write and return 200.  The body is not validated. -/
def update_task_handler (store : Store) (tenant_id user_id user_role
    task_id : String) (body : Body) (now : String) : HandlerResult :=
  match store tenant_id task_id with
  | none => { statusCode := 404, store := store }
  | some existing_task =>
    -- Check permissions - members can only update their own tasks
    if user_role = "MEMBER" ∧ existing_task.created_by ≠ user_id then
      { statusCode := 403, store := store }
    else
      let updated := applyUpdate existing_task body now
      { statusCode := 200
        store := store.put tenant_id task_id (some updated) }

/-- A concrete stored task used to evaluate the handlers on concrete
inputs. -/
def exTask : Task :=
  { task_id := "t1", tenant_id := "acme", title := "Ship v1",
    description := "", status := "OPEN", priority := "MEDIUM",
    assigned_to := "", created_by := "ali",
    created_at := "2026-01-01T00:00:00Z",
    updated_at := "2026-01-01T00:00:00Z",
    GSI1SK := "STATUS#OPEN#2026-01-01T00:00:00Z" }

/-- A concrete store holding exactly `exTask` in tenant `acme`. -/
def exStore : Store := fun ten tid =>
  if ten = "acme" ∧ tid = "t1" then some exTask else none

end SaaS

/-- C1: the permission policy is total (it is a total Lean function) and
matches the stated matrix: ADMIN is always allowed; MEMBER may always
create and read, may update iff the resource owner equals the current
user, and may never delete; any role other than ADMIN and MEMBER is
denied. -/
theorem permission_policy_matches_matrix (role action : String)
    (ro cu : Option String) :
    (role = "ADMIN" → SaaS.check_user_permissions role action ro cu = true)
    ∧ (role = "MEMBER" →
        ((action = "create" ∨ action = "read") →
            SaaS.check_user_permissions role action ro cu = true)
        ∧ (action = "update" →
            (SaaS.check_user_permissions role action ro cu = true ↔ ro = cu))
        ∧ (action = "delete" →
            SaaS.check_user_permissions role action ro cu = false))
    ∧ (role ≠ "ADMIN" → role ≠ "MEMBER" →
        SaaS.check_user_permissions role action ro cu = false) := by
  unfold SaaS.check_user_permissions
  refine ⟨fun h => by simp [h], fun hm => ?_, fun h1 h2 => by simp [h1, h2]⟩
  refine ⟨fun ha => ?_, fun ha => ?_, fun ha => ?_⟩
  · by_cases hadm : role = "ADMIN" <;> simp_all
  · by_cases hadm : role = "ADMIN"
    · simp_all
    · subst hm ha
      constructor
      · intro h
        by_cases hro : ro = cu
        · exact hro
        · simp_all
      · intro hro
        simp_all
  · by_cases hadm : role = "ADMIN"
    · simp_all
    · subst hm ha
      simp_all

/-- Witness for C1: instantiates the matrix theorem at concrete inputs,
discharging each hypothesis. -/
theorem permission_policy_matches_matrix_witness :
    SaaS.check_user_permissions "ADMIN" "delete" none none = true
    ∧ SaaS.check_user_permissions "MEMBER" "update" (some "a") (some "b") = false
    ∧ SaaS.check_user_permissions "VIEWER" "read" none none = false := by
  refine ⟨(permission_policy_matches_matrix "ADMIN" "delete" none none).1 rfl,
    ?_, (permission_policy_matches_matrix "VIEWER" "read" none none).2.2
          (by decide) (by decide)⟩
  have h := ((permission_policy_matches_matrix "MEMBER" "update"
      (some "a") (some "b")).2.1 rfl).2.1 rfl
  by_cases hb : SaaS.check_user_permissions "MEMBER" "update" (some "a") (some "b") = true
  · exact absurd (h.mp hb) (by decide)
  · simpa using hb

/-- C10: for a MEMBER performing an update, the ownership test passes
whenever `resource_owner = current_user`, in particular when both are
`none` (both Python arguments omitted, defaulting to `None`), so a
MEMBER update is allowed with ownership information entirely missing. -/
theorem member_update_none_owner_allowed (ro cu : Option String)
    (h : ro = cu) :
    SaaS.check_user_permissions "MEMBER" "update" ro cu = true := by
  unfold SaaS.check_user_permissions
  simp [h]

/-- Witness for C10 at the `none`/`none` instance highlighted by the
claim. -/
theorem member_update_none_owner_allowed_witness :
    SaaS.check_user_permissions "MEMBER" "update" none none = true :=
  member_update_none_owner_allowed none none rfl

/-- Counterexample to C2: a request whose role is "VIEWER" (neither
ADMIN nor MEMBER) against an existing task is not denied: the update
handler returns 200, not Forbidden (403), and modifies the stored
task.  The handler's permission check only fires for MEMBER
non-owners. -/
theorem update_unknown_role_not_denied_cex :
    (SaaS.update_task_handler SaaS.exStore "acme" "bob" "VIEWER" "t1"
        { status := some "DONE" } "2026-02-02T00:00:00Z").statusCode = 200
    ∧ (SaaS.update_task_handler SaaS.exStore "acme" "bob" "VIEWER" "t1"
        { status := some "DONE" } "2026-02-02T00:00:00Z").store "acme" "t1"
        ≠ some SaaS.exTask := by
  constructor
  · rfl
  · decide

/-- C2 amended: the update handler denies exactly MEMBER non-owners.
For every request naming an existing task: when the role is "MEMBER"
and the task's `created_by` differs from the caller, the handler
returns Forbidden (403) and leaves the store unchanged; when the role
is anything other than "MEMBER" (in particular any role other than
ADMIN and MEMBER), or a MEMBER owning the task, the handler proceeds
and returns 200. -/
theorem update_denies_only_member_nonowner (store : SaaS.Store)
    (tenant uid role tid : String) (body : SaaS.Body) (now : String)
    (t : SaaS.Task) (hget : store tenant tid = some t) :
    (role = "MEMBER" ∧ t.created_by ≠ uid →
      (SaaS.update_task_handler store tenant uid role tid body now).statusCode = 403
      ∧ (SaaS.update_task_handler store tenant uid role tid body now).store = store)
    ∧ (¬(role = "MEMBER" ∧ t.created_by ≠ uid) →
      (SaaS.update_task_handler store tenant uid role tid body now).statusCode = 200) := by
  by_cases hc : role = "MEMBER" ∧ t.created_by ≠ uid
  · refine ⟨fun _ => ?_, fun h => absurd hc h⟩
    simp [SaaS.update_task_handler, hget, hc]
  · refine ⟨fun h => absurd h hc, fun _ => ?_⟩
    simp [SaaS.update_task_handler, hget, hc]

/-- Witness for the amended C2 at concrete inputs: a MEMBER who is not
the creator is denied with the store untouched, and a VIEWER is not
denied. -/
theorem update_denies_only_member_nonowner_witness :
    ((SaaS.update_task_handler SaaS.exStore "acme" "bob" "MEMBER" "t1"
        { } "2026-02-02T00:00:00Z").statusCode = 403
      ∧ (SaaS.update_task_handler SaaS.exStore "acme" "bob" "MEMBER" "t1"
        { } "2026-02-02T00:00:00Z").store = SaaS.exStore)
    ∧ (SaaS.update_task_handler SaaS.exStore "acme" "bob" "VIEWER" "t1"
        { } "2026-02-02T00:00:00Z").statusCode = 200 :=
  ⟨(update_denies_only_member_nonowner SaaS.exStore "acme" "bob" "MEMBER" "t1"
      { } "2026-02-02T00:00:00Z" SaaS.exTask rfl).1 ⟨rfl, by decide⟩,
   (update_denies_only_member_nonowner SaaS.exStore "acme" "bob" "VIEWER" "t1"
      { } "2026-02-02T00:00:00Z" SaaS.exTask rfl).2 (by simp)⟩

/-- Counterexample to C4: an Update request from an ADMIN with body
`status = "BOGUS"` (outside {OPEN, IN_PROGRESS, DONE, CANCELLED}) is
not rejected: the handler returns 200 and the bogus status is
persisted.  The update handler never validates the body. -/
theorem update_bogus_status_accepted_cex :
    (SaaS.update_task_handler SaaS.exStore "acme" "ali" "ADMIN" "t1"
        { status := some "BOGUS" } "2026-02-02T00:00:00Z").statusCode = 200
    ∧ ((SaaS.update_task_handler SaaS.exStore "acme" "ali" "ADMIN" "t1"
        { status := some "BOGUS" } "2026-02-02T00:00:00Z").store "acme" "t1").map
        SaaS.Task.status = some "BOGUS" := by
  constructor
  · rfl
  · decide

/-- C4 amended: the update handler performs no status (or priority)
enum validation.  For every request naming an existing task and
passing the MEMBER-ownership check, any status string present in the
body — including values outside {OPEN, IN_PROGRESS, DONE, CANCELLED} —
is persisted verbatim with a 200 response, and the stored GSI1SK
embeds the unvalidated value. -/
theorem update_status_not_validated (store : SaaS.Store)
    (tenant uid role tid : String) (body : SaaS.Body) (now s : String)
    (t : SaaS.Task) (hget : store tenant tid = some t)
    (hperm : ¬(role = "MEMBER" ∧ t.created_by ≠ uid))
    (hs : body.status = some s) :
    (SaaS.update_task_handler store tenant uid role tid body now).statusCode = 200
    ∧ ((SaaS.update_task_handler store tenant uid role tid body now).store
        tenant tid).map SaaS.Task.status = some s
    ∧ ((SaaS.update_task_handler store tenant uid role tid body now).store
        tenant tid).map SaaS.Task.GSI1SK
        = some ("STATUS#" ++ s ++ "#" ++ now) := by
  refine ⟨?_, ?_, ?_⟩ <;>
    simp [SaaS.update_task_handler, SaaS.applyUpdate, SaaS.Store.put, hget,
      hperm, hs]

/-- Witness for the amended C4 at a concrete input with
status = "BOGUS". -/
theorem update_status_not_validated_witness :
    (SaaS.update_task_handler SaaS.exStore "acme" "ali" "ADMIN" "t1"
        { status := some "BOGUS" } "2026-02-02T00:00:00Z").statusCode = 200
    ∧ ((SaaS.update_task_handler SaaS.exStore "acme" "ali" "ADMIN" "t1"
        { status := some "BOGUS" } "2026-02-02T00:00:00Z").store "acme" "t1").map
        SaaS.Task.status = some "BOGUS"
    ∧ ((SaaS.update_task_handler SaaS.exStore "acme" "ali" "ADMIN" "t1"
        { status := some "BOGUS" } "2026-02-02T00:00:00Z").store "acme" "t1").map
        SaaS.Task.GSI1SK = some "STATUS#BOGUS#2026-02-02T00:00:00Z" :=
  update_status_not_validated SaaS.exStore "acme" "ali" "ADMIN" "t1"
    { status := some "BOGUS" } "2026-02-02T00:00:00Z" "BOGUS" SaaS.exTask
    rfl (by decide) rfl

/-- C5: the update handler performs a field-level merge in one single
write.  For every existing task and every partial body (request passing
the permission check), the store after the call holds at the updated
key one item `t'` such that, simultaneously: each of the five updatable
fields present in the body takes the body's value and each absent field
retains its prior value; `updated_at` is set to the current time; when
`status` is present, `GSI1SK` is recomputed to
`STATUS#<new status>#<new updated_at>` (and is untouched otherwise);
the immutable fields are unchanged; and no other key of the store is
modified. -/
theorem update_field_level_merge (store : SaaS.Store)
    (tenant uid role tid : String) (body : SaaS.Body) (now : String)
    (t : SaaS.Task) (hget : store tenant tid = some t)
    (hperm : ¬(role = "MEMBER" ∧ t.created_by ≠ uid)) :
    ∃ t', (SaaS.update_task_handler store tenant uid role tid body now).store
        tenant tid = some t'
      ∧ (∀ x, body.title = some x → t'.title = x)
      ∧ (body.title = none → t'.title = t.title)
      ∧ (∀ x, body.description = some x → t'.description = x)
      ∧ (body.description = none → t'.description = t.description)
      ∧ (∀ x, body.status = some x → t'.status = x)
      ∧ (body.status = none → t'.status = t.status)
      ∧ (∀ x, body.priority = some x → t'.priority = x)
      ∧ (body.priority = none → t'.priority = t.priority)
      ∧ (∀ x, body.assigned_to = some x → t'.assigned_to = x)
      ∧ (body.assigned_to = none → t'.assigned_to = t.assigned_to)
      ∧ t'.updated_at = now
      ∧ (∀ x, body.status = some x →
          t'.GSI1SK = "STATUS#" ++ x ++ "#" ++ t'.updated_at)
      ∧ (body.status = none → t'.GSI1SK = t.GSI1SK)
      ∧ t'.task_id = t.task_id ∧ t'.tenant_id = t.tenant_id
      ∧ t'.created_by = t.created_by ∧ t'.created_at = t.created_at
      ∧ (∀ ten oid, ¬(ten = tenant ∧ oid = tid) →
          (SaaS.update_task_handler store tenant uid role tid body now).store
            ten oid = store ten oid) := by
  refine ⟨SaaS.applyUpdate t body now, ?_, ?_⟩
  · simp [SaaS.update_task_handler, SaaS.Store.put, hget, hperm]
  refine ⟨?_, ?_, ?_, ?_, ?_, ?_, ?_, ?_, ?_, ?_, ?_, ?_, ?_, rfl, rfl,
      rfl, rfl, ?_⟩
  all_goals
    first
    | (intro x hx; simp [SaaS.applyUpdate, hx])
    | (intro hx; simp [SaaS.applyUpdate, hx])
    | (intro ten oid hx;
       simp [SaaS.update_task_handler, SaaS.Store.put, hget, hperm, hx])
    | simp [SaaS.applyUpdate]

/-- Witness for C5 at a concrete input: body updating status and title
but leaving priority, description and assignment absent. -/
theorem update_field_level_merge_witness :
    ∃ t', (SaaS.update_task_handler SaaS.exStore "acme" "ali" "ADMIN" "t1"
        { title := some "Ship v2", status := some "DONE" }
        "2026-02-02T00:00:00Z").store "acme" "t1" = some t'
      ∧ (∀ x, (SaaS.Body.title { title := some "Ship v2", status := some "DONE" }) = some x → t'.title = x)
      ∧ ((SaaS.Body.title { title := some "Ship v2", status := some "DONE" }) = none → t'.title = SaaS.exTask.title)
      ∧ (∀ x, (SaaS.Body.description { title := some "Ship v2", status := some "DONE" }) = some x → t'.description = x)
      ∧ ((SaaS.Body.description { title := some "Ship v2", status := some "DONE" }) = none → t'.description = SaaS.exTask.description)
      ∧ (∀ x, (SaaS.Body.status { title := some "Ship v2", status := some "DONE" }) = some x → t'.status = x)
      ∧ ((SaaS.Body.status { title := some "Ship v2", status := some "DONE" }) = none → t'.status = SaaS.exTask.status)
      ∧ (∀ x, (SaaS.Body.priority { title := some "Ship v2", status := some "DONE" }) = some x → t'.priority = x)
      ∧ ((SaaS.Body.priority { title := some "Ship v2", status := some "DONE" }) = none → t'.priority = SaaS.exTask.priority)
      ∧ (∀ x, (SaaS.Body.assigned_to { title := some "Ship v2", status := some "DONE" }) = some x → t'.assigned_to = x)
      ∧ ((SaaS.Body.assigned_to { title := some "Ship v2", status := some "DONE" }) = none → t'.assigned_to = SaaS.exTask.assigned_to)
      ∧ t'.updated_at = "2026-02-02T00:00:00Z"
      ∧ (∀ x, (SaaS.Body.status { title := some "Ship v2", status := some "DONE" }) = some x →
          t'.GSI1SK = "STATUS#" ++ x ++ "#" ++ t'.updated_at)
      ∧ ((SaaS.Body.status { title := some "Ship v2", status := some "DONE" }) = none → t'.GSI1SK = SaaS.exTask.GSI1SK)
      ∧ t'.task_id = SaaS.exTask.task_id ∧ t'.tenant_id = SaaS.exTask.tenant_id
      ∧ t'.created_by = SaaS.exTask.created_by ∧ t'.created_at = SaaS.exTask.created_at
      ∧ (∀ ten oid, ¬(ten = "acme" ∧ oid = "t1") →
          (SaaS.update_task_handler SaaS.exStore "acme" "ali" "ADMIN" "t1"
            { title := some "Ship v2", status := some "DONE" }
            "2026-02-02T00:00:00Z").store ten oid = SaaS.exStore ten oid) :=
  update_field_level_merge SaaS.exStore "acme" "ali" "ADMIN" "t1"
    { title := some "Ship v2", status := some "DONE" }
    "2026-02-02T00:00:00Z" SaaS.exTask rfl (by decide)

namespace SaaS

/-- Body validator from `validate_task_data` in
src/services/common/utils.py: requires a non-empty title, bounds the
title at 200 and the description at 1000 characters, and restricts
status/priority to their enumerated sets.  `none` means valid.  (The
create and update handlers never call it — see the C3/C4 theorems.) -/
def validate_task_data (task_data : Body) : Option String :=
  if task_data.title = none ∨ task_data.title = some "" then
    some "Missing required fields: title"
  else if (task_data.title.getD "").length > 200 then
    some "Title cannot exceed 200 characters"
  else if (task_data.description.getD "").length > 1000 then
    some "Description cannot exceed 1000 characters"
  else if ¬ (task_data.status.getD "OPEN")
      ∈ ["OPEN", "IN_PROGRESS", "DONE", "CANCELLED"] then
    some "Status must be one of: OPEN, IN_PROGRESS, DONE, CANCELLED"
  else if ¬ (task_data.priority.getD "MEDIUM")
      ∈ ["LOW", "MEDIUM", "HIGH", "URGENT"] then
    some "Priority must be one of: LOW, MEDIUM, HIGH, URGENT"
  else
    none

/-- Create handler, translated from `handler` in
src/services/tasks/create_task.py.  The only body validation is
`if not body.get('title')` (reject when title is absent or empty);
`validate_task_data` is never called.  `publish_ok` models whether the
EventBridge `put_events` call returns normally; when it raises, the
exception propagates to the generic `except Exception` clause, which
returns 500 — after the `put_item` write has already happened, and
without deleting or altering the written item. -/
def create_task_handler (store : Store) (tenant_id user_id : String)
    (body : Body) (task_id now : String) (publish_ok : Bool) :
    HandlerResult :=
  if body.title = none ∨ body.title = some "" then
    { statusCode := 400, store := store }
  else
    let task : Task :=
      { task_id := task_id
        tenant_id := tenant_id
        title := body.title.getD ""
        description := body.description.getD ""
        status := body.status.getD "OPEN"
        priority := body.priority.getD "MEDIUM"
        assigned_to := body.assigned_to.getD ""
        created_by := user_id
        created_at := now
        updated_at := now
        GSI1SK := "STATUS#" ++ body.status.getD "OPEN" ++ "#" ++ now }
    let store' := store.put tenant_id task_id (some task)
    if publish_ok then
      { statusCode := 201, store := store' }
    else
      { statusCode := 500, store := store' }

/-- The empty Record Store. -/
def emptyStore : Store := fun _ _ => none

/-- A title of exactly 201 characters. -/
def title201 : String := String.mk (List.replicate 201 'a')

/-- A title of exactly 200 characters. -/
def title200 : String := String.mk (List.replicate 200 'a')

/-- A description of exactly 1001 characters. -/
def desc1001 : String := String.mk (List.replicate 1001 'd')

end SaaS

/-- Counterexample to C3: a Create request whose title has length 201
and whose description has length 1001 is not rejected: the handler
returns 201 and persists the task.  The create handler never checks
field lengths (its only check is a non-empty title). -/
theorem create_length_201_accepted_cex :
    SaaS.title201.length = 201
    ∧ SaaS.desc1001.length = 1001
    ∧ (SaaS.create_task_handler SaaS.emptyStore "acme" "ali"
        { title := some SaaS.title201, description := some SaaS.desc1001 }
        "t9" "2026-03-03T00:00:00Z" true).statusCode = 201
    ∧ ((SaaS.create_task_handler SaaS.emptyStore "acme" "ali"
        { title := some SaaS.title201, description := some SaaS.desc1001 }
        "t9" "2026-03-03T00:00:00Z" true).store "acme" "t9").isSome = true := by
  refine ⟨?_, ?_, rfl, by decide⟩
  · show (String.mk (List.replicate 201 'a')).length = 201
    rw [String.length_mk, List.length_replicate]
  · show (String.mk (List.replicate 1001 'd')).length = 1001
    rw [String.length_mk, List.length_replicate]

/-- C3 amended: Create validates only that the title is present and
non-empty.  A missing or empty title yields 400 with nothing
persisted; any present non-empty title — of any length, including 201
characters, and with a description of any length — is accepted with
201 and persisted.  (A title of length exactly 200 is accepted, as the
claim stated.) -/
theorem create_validates_only_nonempty_title (store : SaaS.Store)
    (tenant uid : String) (body : SaaS.Body) (tid now : String) :
    (body.title = none ∨ body.title = some "" →
      (SaaS.create_task_handler store tenant uid body tid now true).statusCode = 400
      ∧ (SaaS.create_task_handler store tenant uid body tid now true).store = store)
    ∧ (∀ tl, body.title = some tl → tl ≠ "" →
      (SaaS.create_task_handler store tenant uid body tid now true).statusCode = 201
      ∧ ((SaaS.create_task_handler store tenant uid body tid now true).store
          tenant tid).map SaaS.Task.title = some tl) := by
  constructor
  · intro h
    constructor <;> simp [SaaS.create_task_handler, if_pos h]
  · intro tl htl hne
    have h : ¬(body.title = none ∨ body.title = some "") := by
      simp [htl, hne]
    simp [SaaS.create_task_handler, h, SaaS.Store.put, htl, hne]

/-- Witness for the amended C3: the 201-character title (with a
1001-character description) is accepted and persisted, and the
200-character title is accepted. -/
theorem create_validates_only_nonempty_title_witness :
    ((SaaS.create_task_handler SaaS.emptyStore "acme" "ali"
        { title := some SaaS.title201, description := some SaaS.desc1001 }
        "t9" "2026-03-03T00:00:00Z" true).statusCode = 201
      ∧ ((SaaS.create_task_handler SaaS.emptyStore "acme" "ali"
        { title := some SaaS.title201, description := some SaaS.desc1001 }
        "t9" "2026-03-03T00:00:00Z" true).store "acme" "t9").map
          SaaS.Task.title = some SaaS.title201)
    ∧ ((SaaS.create_task_handler SaaS.emptyStore "acme" "ali"
        { title := some SaaS.title200 }
        "t8" "2026-03-03T00:00:00Z" true).statusCode = 201
      ∧ ((SaaS.create_task_handler SaaS.emptyStore "acme" "ali"
        { title := some SaaS.title200 }
        "t8" "2026-03-03T00:00:00Z" true).store "acme" "t8").map
          SaaS.Task.title = some SaaS.title200) :=
  ⟨(create_validates_only_nonempty_title SaaS.emptyStore "acme" "ali"
      { title := some SaaS.title201, description := some SaaS.desc1001 }
      "t9" "2026-03-03T00:00:00Z").2 SaaS.title201 rfl (by decide),
   (create_validates_only_nonempty_title SaaS.emptyStore "acme" "ali"
      { title := some SaaS.title200 }
      "t8" "2026-03-03T00:00:00Z").2 SaaS.title200 rfl (by decide)⟩

/-- Counterexample to C9: when the event publication fails after the
task has been persisted, the handler does not surface a warning — the
generic exception handler turns the request into a 500 failure
response (the claim's "distinct warning rather than a failure
response" part fails; the task itself is indeed not rolled back). -/
theorem create_publish_failure_returns_500_cex :
    (SaaS.create_task_handler SaaS.emptyStore "acme" "ali"
        { title := some "Ship v1" } "t9" "2026-03-03T00:00:00Z"
        false).statusCode = 500
    ∧ ((SaaS.create_task_handler SaaS.emptyStore "acme" "ali"
        { title := some "Ship v1" } "t9" "2026-03-03T00:00:00Z"
        false).store "acme" "t9").isSome = true := by
  exact ⟨rfl, by decide⟩

/-- C9 amended: event publication is indeed best-effort and non-atomic
with the write — a publish failure leaves the store exactly as a
successful publish would (the persisted task is neither deleted nor
altered) — but the failure is not surfaced as a warning: the
`put_events` exception reaches the generic handler, which returns a
500 Internal Server Error, so the request fails even though the task
was created. -/
theorem create_publish_failure_no_rollback (store : SaaS.Store)
    (tenant uid : String) (body : SaaS.Body) (tid now tl : String)
    (htl : body.title = some tl) (hne : tl ≠ "") :
    (SaaS.create_task_handler store tenant uid body tid now false).store
      = (SaaS.create_task_handler store tenant uid body tid now true).store
    ∧ ((SaaS.create_task_handler store tenant uid body tid now false).store
        tenant tid).isSome = true
    ∧ (SaaS.create_task_handler store tenant uid body tid now false).statusCode
      = 500 := by
  have h : ¬(body.title = none ∨ body.title = some "") := by
    simp [htl, hne]
  refine ⟨?_, ?_, ?_⟩ <;>
    simp [SaaS.create_task_handler, h, SaaS.Store.put]

/-- Witness for the amended C9 at a concrete input. -/
theorem create_publish_failure_no_rollback_witness :
    (SaaS.create_task_handler SaaS.emptyStore "acme" "ali"
        { title := some "Ship v1" } "t9" "2026-03-03T00:00:00Z" false).store
      = (SaaS.create_task_handler SaaS.emptyStore "acme" "ali"
        { title := some "Ship v1" } "t9" "2026-03-03T00:00:00Z" true).store
    ∧ ((SaaS.create_task_handler SaaS.emptyStore "acme" "ali"
        { title := some "Ship v1" } "t9" "2026-03-03T00:00:00Z" false).store
        "acme" "t9").isSome = true
    ∧ (SaaS.create_task_handler SaaS.emptyStore "acme" "ali"
        { title := some "Ship v1" } "t9" "2026-03-03T00:00:00Z"
        false).statusCode = 500 :=
  create_publish_failure_no_rollback SaaS.emptyStore "acme" "ali"
    { title := some "Ship v1" } "t9" "2026-03-03T00:00:00Z" "Ship v1"
    rfl (by decide)

namespace SaaS

/-- A Record Store access performed by a handler, for stating that a
code path touches (or does not touch) the store. -/
inductive StoreOp where
  | getItem (tenant id : String)
  | deleteItem (tenant id : String)
  deriving Repr, DecidableEq

/-- Result of a delete-handler invocation: status code, resulting
store, and the ordered trace of store accesses performed. -/
structure DeleteResult where
  statusCode : Nat
  store : Store
  ops : List StoreOp

/-- Delete handler, translated from `handler` in
src/services/tasks/delete_task.py.  The role check precedes every
store access; then the item is fetched (404 when absent) and
hard-deleted. -/
def delete_task_handler (store : Store)
    (tenant_id user_id user_role task_id : String) : DeleteResult :=
  -- Check permissions - only ADMINs can delete tasks
  if user_role ≠ "ADMIN" then
    { statusCode := 403, store := store, ops := [] }
  else
    match store tenant_id task_id with
    | none =>
      { statusCode := 404, store := store
        ops := [StoreOp.getItem tenant_id task_id] }
    | some _ =>
      { statusCode := 200
        store := store.put tenant_id task_id none
        ops := [StoreOp.getItem tenant_id task_id,
                StoreOp.deleteItem tenant_id task_id] }

end SaaS

/-- C6: delete is admin-only and fails closed before touching the
store.  For every non-ADMIN role the handler returns Forbidden (403)
with an empty store-access trace and the store unchanged; for an ADMIN
request naming an id absent from the tenant's partition it returns
NotFound (404), performs only the fetch (no delete operation), and
leaves the store unchanged. -/
theorem delete_admin_only_fails_closed (store : SaaS.Store)
    (tenant uid role tid : String) :
    (role ≠ "ADMIN" →
      (SaaS.delete_task_handler store tenant uid role tid).statusCode = 403
      ∧ (SaaS.delete_task_handler store tenant uid role tid).ops = []
      ∧ (SaaS.delete_task_handler store tenant uid role tid).store = store)
    ∧ (role = "ADMIN" → store tenant tid = none →
      (SaaS.delete_task_handler store tenant uid role tid).statusCode = 404
      ∧ (SaaS.delete_task_handler store tenant uid role tid).ops
          = [SaaS.StoreOp.getItem tenant tid]
      ∧ (SaaS.delete_task_handler store tenant uid role tid).store = store) := by
  constructor
  · intro h
    refine ⟨?_, ?_, ?_⟩ <;> simp [SaaS.delete_task_handler, h]
  · intro h habs
    refine ⟨?_, ?_, ?_⟩ <;> simp [SaaS.delete_task_handler, h, habs]

/-- Witness for C6: a MEMBER delete is rejected with no store access,
and an ADMIN delete of a missing id returns 404 having performed only
the fetch. -/
theorem delete_admin_only_fails_closed_witness :
    ((SaaS.delete_task_handler SaaS.exStore "acme" "bob" "MEMBER" "t1").statusCode = 403
      ∧ (SaaS.delete_task_handler SaaS.exStore "acme" "bob" "MEMBER" "t1").ops = []
      ∧ (SaaS.delete_task_handler SaaS.exStore "acme" "bob" "MEMBER" "t1").store = SaaS.exStore)
    ∧ ((SaaS.delete_task_handler SaaS.exStore "acme" "ali" "ADMIN" "missing").statusCode = 404
      ∧ (SaaS.delete_task_handler SaaS.exStore "acme" "ali" "ADMIN" "missing").ops
          = [SaaS.StoreOp.getItem "acme" "missing"]
      ∧ (SaaS.delete_task_handler SaaS.exStore "acme" "ali" "ADMIN" "missing").store = SaaS.exStore) :=
  ⟨(delete_admin_only_fails_closed SaaS.exStore "acme" "bob" "MEMBER" "t1").1
      (by decide),
   (delete_admin_only_fails_closed SaaS.exStore "acme" "ali" "ADMIN" "missing").2
      rfl (by decide)⟩

namespace SaaS

/-- The claim set forwarded by the authorizer, as built by
`extract_tenant_context` in src/services/auth/authorizer.py. -/
structure TenantContext where
  tenant_id : String
  user_id : String
  email : String
  role : String
  deriving Repr, DecidableEq

/-- The IAM-style policy object returned by the authorizer: principal,
allow/deny effect, the resource (method ARN), and the optional
forwarded context. -/
structure AuthPolicy where
  principalId : String
  effect : String
  resource : String
  context : Option TenantContext
  deriving Repr, DecidableEq

/-- `generate_policy` from src/services/auth/authorizer.py: the
context map is attached to the policy exactly when one is passed
(the Python default is `None`). -/
def generate_policy (effect resource : String)
    (context : Option TenantContext := none) : AuthPolicy :=
  { principalId := match context with
      | some c => c.user_id
      | none => "unknown"
    effect := effect
    resource := resource
    context := context }

/-- Authorizer handler, translated from `handler` in
src/services/auth/authorizer.py.  The combined outcome of
`verify_token` plus `extract_tenant_context` on the presented token is
modelled by the oracle `verify`; `Except.error` models any raised
exception — expired signature, invalid signature, unresolvable key
id, or key-set fetch failure — all of which are caught by the
handler's two `except` clauses.  A header not starting with
`"Bearer "` raises `ValueError` before verification. -/
def authorizer_handler (authorizationToken methodArn : String)
    (verify : String → Except String TenantContext) : AuthPolicy :=
  if ¬ authorizationToken.startsWith "Bearer " then
    generate_policy "Deny" methodArn
  else
    match verify (authorizationToken.replace "Bearer " "") with
    | Except.error _ => generate_policy "Deny" methodArn
    | Except.ok tenant_context =>
      generate_policy "Allow" methodArn (some tenant_context)

end SaaS

/-- C7: the authorizer fails closed.  For every input event and every
verification outcome: if verification raises (any exception), the
returned policy is a Deny, never an Allow, and carries no context;
moreover context is attached only on Allow — every Deny policy has no
context, and any policy carrying a context is an Allow. -/
theorem authorizer_fails_closed (tok arn : String)
    (verify : String → Except String SaaS.TenantContext) :
    (∀ e, verify (tok.replace "Bearer " "") = Except.error e →
      (SaaS.authorizer_handler tok arn verify).effect = "Deny"
      ∧ (SaaS.authorizer_handler tok arn verify).context = none)
    ∧ ((SaaS.authorizer_handler tok arn verify).effect = "Deny" →
      (SaaS.authorizer_handler tok arn verify).context = none)
    ∧ ((SaaS.authorizer_handler tok arn verify).context ≠ none →
      (SaaS.authorizer_handler tok arn verify).effect = "Allow") := by
  unfold SaaS.authorizer_handler
  by_cases hb : tok.startsWith "Bearer "
  · simp only [hb]
    cases hv : verify (tok.replace "Bearer " "") with
    | error e => simp [SaaS.generate_policy]
    | ok ctx => simp [SaaS.generate_policy]
  · simp [hb, SaaS.generate_policy]

/-- Witness for C7 at a concrete event whose token verification
raises an expired-signature error. -/
theorem authorizer_fails_closed_witness :
    (SaaS.authorizer_handler "Bearer abc" "arn:aws:execute-api:r:a:x"
        (fun _ => Except.error "Token has expired")).effect = "Deny"
    ∧ (SaaS.authorizer_handler "Bearer abc" "arn:aws:execute-api:r:a:x"
        (fun _ => Except.error "Token has expired")).context = none :=
  (authorizer_fails_closed "Bearer abc" "arn:aws:execute-api:r:a:x"
      (fun _ => Except.error "Token has expired")).1
    "Token has expired" rfl

namespace SaaS

/-- The `detail` payload of a TaskCreated event record
(src/events/task_created_handler.py). -/
structure EventDetail where
  task_id : String
  tenant_id : String
  title : String
  created_by : String
  created_at : String
  deriving Repr, DecidableEq

/-- One record of the incoming batch.  `malformed` models a record
whose attribute extraction raises (e.g. the record is not a mapping,
so `record.get(...)` raises); `record` carries the source tag and the
`detail` payload. -/
inductive EventRecord where
  | malformed
  | record (source : String) (detail : EventDetail)
  deriving Repr, DecidableEq

/-- The return value of the fan-out handler: status code and the list
of `(task_id, tenant_id)` entries of the per-record summary. -/
structure FanoutResult where
  statusCode : Nat
  processed_events : List (String × String)
  deriving Repr, DecidableEq

/-- The loop over `event['Records']` in
src/events/task_created_handler.py, together with its surrounding
single `try`: the `try` wraps the WHOLE loop, so an exception raised
while extracting one record aborts the remaining iterations and the
`except` clause returns a 500 carrying only the events processed so
far.  The three projection steps (`await_process_analytics`,
`await_send_notifications`, `await_create_audit_log`) each catch their
own exceptions internally and return error dictionaries, so they never
raise out of the loop. -/
def fanout_loop : List EventRecord → List (String × String) → FanoutResult
  | [], acc => { statusCode := 200, processed_events := acc }
  | EventRecord.malformed :: _, acc =>
    { statusCode := 500, processed_events := acc }
  | EventRecord.record src detail :: rest, acc =>
    if src = "saas.tasks" then
      fanout_loop rest (acc ++ [(detail.task_id, detail.tenant_id)])
    else
      fanout_loop rest acc

/-- Fan-out handler, translated from `handler` in
src/events/task_created_handler.py. -/
def fanout_handler (records : List EventRecord) : FanoutResult :=
  fanout_loop records []

/-- A concrete well-formed TaskCreated event detail. -/
def exDetail : EventDetail :=
  { task_id := "t1", tenant_id := "acme", title := "Ship v1",
    created_by := "ali", created_at := "2026-01-01T00:00:00Z" }

end SaaS

/-- C8 (code bug): the fan-out handler does NOT isolate failures per
record.  On the batch `[malformed, good]` — a record whose extraction
raises followed by a well-formed sibling from source "saas.tasks" —
the handler aborts the whole batch: it returns 500 with an empty
summary, so the sibling is never processed and does not appear in the
summary; processed alone, the very same sibling is processed and does
appear. -/
theorem fanout_aborts_batch_on_malformed_record :
    SaaS.fanout_handler
        [SaaS.EventRecord.malformed,
         SaaS.EventRecord.record "saas.tasks" SaaS.exDetail]
      = { statusCode := 500, processed_events := [] }
    ∧ SaaS.fanout_handler [SaaS.EventRecord.record "saas.tasks" SaaS.exDetail]
      = { statusCode := 200, processed_events := [("t1", "acme")] } := by
  constructor <;> rfl
